import Mathlib

/-!
Verification of the lodestar-project observation enrichment and distance
calculation pipeline.

Shallow embedding of the relevant parts of `src/observations/models.py`,
`src/observations/views.py` and
`src/observations/management/commands/calculate_solar_system_distances.py`.

Modelling conventions:
* Python `Decimal` arithmetic is modelled by exact rational arithmetic (`ℚ`).
  The default `Decimal` context carries 28 significant digits, far beyond any
  tolerance appearing in the properties below, so the exact-rational model is
  the intended idealisation of that context.
* Python values passed to `calculate_distances_from_parallax` are modelled by
  `PyVal` (`None`, a string, or a finite numeric value).  Non-finite specials
  such as `"nan"`/`"inf"` are outside the rational model and are not used by
  any property below.
* Raising an exception is modelled through an `Except` channel; a `try/except`
  that swallows the exception is translated to a branch that returns `.ok`.
* Database rows are modelled as Lean structures; a saved JSON payload is a
  flat association list of column name to stringified cell value, exactly the
  shape the views build (`api_data[col] = str(...[col][0])`).
-/

namespace Lodestar

/-- A Python value as it can reach `calculate_distances_from_parallax`:
`None`, a string, or a finite number (int/float, modelled exactly). -/
inductive PyVal where
  | none
  | str (s : String)
  | num (q : ℚ)
deriving DecidableEq

/-- Value of a decimal digit list read most-significant first. -/
def digitsToNat (ds : List Char) : ℕ :=
  ds.foldl (fun n c => 10 * n + (c.toNat - 48)) 0

/-- The syntactic shape of a finite decimal literal: sign, mantissa digits
value, number of fractional digits, exponent sign and exponent value. -/
structure DecLit where
  neg : Bool
  mantNum : ℕ
  fracLen : ℕ
  expNeg : Bool
  expVal : ℕ
deriving DecidableEq

/-- Exponent suffix of a numeric literal: empty, or `e`/`E` followed by an
optional sign and digits (anything else rejects the literal). -/
def parseExpSyn : List Char → Option (Bool × ℕ)
  | [] => Option.some (false, 0)
  | c :: r =>
    if c = 'e' ∨ c = 'E' then
      let (esgnNeg, er) :=
        match r with
        | '-' :: t => (true, t)
        | '+' :: t => (false, t)
        | _ => (false, r)
      let ed := er.takeWhile Char.isDigit
      let rest := er.dropWhile Char.isDigit
      if ed.isEmpty || !rest.isEmpty then Option.none
      else Option.some (esgnNeg, digitsToNat ed)
    else Option.none

/-- Mantissa of a numeric literal: optional sign, digits with an optional
decimal point (at least one digit overall), then the optional exponent. -/
def parseDecSyn (cs : List Char) : Option DecLit :=
  let (neg, cs1) :=
    match cs with
    | '-' :: r => (true, r)
    | '+' :: r => (false, r)
    | _ => (false, cs)
  let ip := cs1.takeWhile Char.isDigit
  let r1 := cs1.dropWhile Char.isDigit
  let (fp, r2) :=
    match r1 with
    | '.' :: r => (r.takeWhile Char.isDigit, r.dropWhile Char.isDigit)
    | _ => ([], r1)
  if ip.isEmpty && fp.isEmpty then Option.none
  else
    (parseExpSyn r2).map
      (fun e =>
        { neg := neg, mantNum := digitsToNat (ip ++ fp), fracLen := fp.length,
          expNeg := e.1, expVal := e.2 })

/-- The rational value a decimal literal denotes. -/
def DecLit.toRat (d : DecLit) : ℚ :=
  let mag : ℚ := (d.mantNum : ℚ) / (10 : ℚ) ^ d.fracLen
  let mant : ℚ := if d.neg then -mag else mag
  if d.expNeg then mant / (10 : ℚ) ^ d.expVal else mant * (10 : ℚ) ^ d.expVal

/-- Drop leading and trailing whitespace, as Python numeric conversion does. -/
def stripChars (cs : List Char) : List Char :=
  ((cs.dropWhile Char.isWhitespace).reverse.dropWhile Char.isWhitespace).reverse

/-- The numeric value denoted by a string, if any: the common grammar accepted
by both `Decimal(str)` and `float(str)` for finite decimal literals. -/
def parseDec (s : String) : Option ℚ :=
  (parseDecSyn (stripChars s.toList)).map DecLit.toRat

/-- `Decimal(x)` for a `PyVal`: `None` raises `TypeError`, a string is parsed
(raising `InvalidOperation` on failure), a number converts to its exact value.
`Option.none` stands for the raising cases, which the caller catches. -/
def pyDecimal : PyVal → Option ℚ
  | PyVal.none => Option.none
  | PyVal.str s => parseDec s
  | PyVal.num q => Option.some q

/-- The fields `ApiMixin` contributes to `Star`, `DeepSky` and `SolarSystem`:
`api_payload` (nullable JSON object of string keys to string values),
`distance_light_years` and `distance_miles` (nullable decimals). -/
structure ApiState where
  api_payload : Option (List (String × String))
  distance_light_years : Option ℚ
  distance_miles : Option ℚ
deriving DecidableEq

/-- `ApiMixin.has_catalog_data`: `bool(self.api_payload)` — false for a null
payload and for an empty JSON object. -/
def has_catalog_data (s : ApiState) : Bool :=
  match s.api_payload with
  | Option.none => false
  | Option.some kvs => !kvs.isEmpty

/-- Lines 219-220 of `models.py`: both distance fields are set to `None`
at the top of `calculate_distances_from_parallax`. -/
def reset_distances (s : ApiState) : ApiState :=
  { s with distance_light_years := Option.none, distance_miles := Option.none }

/-- The spec's `InvalidMeasurement` error for the distance calculator. -/
inductive InvalidMeasurement where
  | invalid
deriving DecidableEq

/-- `ApiMixin.calculate_distances_from_parallax` (models.py lines 217-241).
The method resets both distance fields, returns `(None, None)` when there is
no catalog data, when the input is `None` or `""`, when `Decimal(...)` raises
(caught `TypeError`/`InvalidOperation`) or when the parsed value is not
positive; otherwise it computes `3260.0 / parallax` light-years and
`* 5880000000000` miles and stores both.  The `Except` channel is the
method's raise surface: every reachable branch returns normally (`.ok`). -/
def calculate_distances_from_parallax (s : ApiState) (parallax_mas : PyVal) :
    Except InvalidMeasurement (ApiState × Option ℚ × Option ℚ) :=
  let s0 := reset_distances s
  if !has_catalog_data s0 then Except.ok (s0, Option.none, Option.none)
  else if parallax_mas = PyVal.none ∨ parallax_mas = PyVal.str "" then
    Except.ok (s0, Option.none, Option.none)
  else
    match pyDecimal parallax_mas with
    | Option.none => Except.ok (s0, Option.none, Option.none)
    | Option.some v =>
      if v ≤ 0 then Except.ok (s0, Option.none, Option.none)
      else
        let dly : ℚ := 3260 / v
        let dmi : ℚ := dly * 5880000000000
        Except.ok
          ({ s0 with
              distance_light_years := Option.some dly,
              distance_miles := Option.some dmi },
            Option.some dly, Option.some dmi)

/-- The normal-return value of `calculate_distances_from_parallax` (the
method never raises; see `calculate_distances_from_parallax_ok`). -/
def run_parallax (s : ApiState) (x : PyVal) : ApiState × Option ℚ × Option ℚ :=
  match calculate_distances_from_parallax s x with
  | Except.ok r => r
  | Except.error _ => (reset_distances s, Option.none, Option.none)

/-- Modelled from the spec: `calculate_distances_from_lighttime` is invoked
from `AddObservationView.post` and from the `calculate_solar_system_distances`
management command, but its definition is not among the provided sources;
only its callers are.  Per the spec (§4.1): `from_light_time(t)` computes
`distance_ly = t / 525600.0` (minutes in a Julian year), then
`distance_miles = distance_ly * 5880000000000`, failing with
`InvalidMeasurement` when the input is zero or negative, and both results are
stored on the observation. -/
def calculate_distances_from_lighttime (s : ApiState) (light_time_minutes : ℚ) :
    Except InvalidMeasurement ApiState :=
  if light_time_minutes ≤ 0 then Except.error InvalidMeasurement.invalid
  else
    let dly : ℚ := light_time_minutes / 525600
    Except.ok
      { s with
          distance_light_years := Option.some dly,
          distance_miles := Option.some (dly * 5880000000000) }

/-- Round to the nearest integer, ties to the even integer — the
`ROUND_HALF_EVEN` default of the `decimal` module, used by Django when a
`DecimalField` value is quantized for storage. -/
def roundHalfEven (y : ℚ) : ℤ :=
  if y - ⌊y⌋ < 1 / 2 then ⌊y⌋
  else if 1 / 2 < y - ⌊y⌋ then ⌊y⌋ + 1
  else if ⌊y⌋ % 2 = 0 then ⌊y⌋ else ⌊y⌋ + 1

/-- The storage boundary of both distance fields: Django quantizes a
`DecimalField(decimal_places=2)` value to 2 fractional digits
(`ROUND_HALF_EVEN`) when writing it to the database (models.py lines
194-207 declare `decimal_places=2` for `distance_light_years` and
`distance_miles`). -/
def quantize2 (x : ℚ) : ℚ :=
  (roundHalfEven (100 * x) : ℚ) / 100

/-- Log levels used by the views (`logger.info` / `logger.warning` /
`logger.error`). -/
inductive LogLevel where
  | info
  | warning
  | error
deriving DecidableEq

/-- One emitted log record. -/
structure LogEntry where
  level : LogLevel
  msg : String
deriving DecidableEq

/-- First column of a single-row astropy table lookup:
`t[k][0]` rendered as a string, or absent when `k` is not a column.
Cells are modelled by their string renderings. -/
def lookupCol (t : List (String × String)) (k : String) : Option String :=
  (t.find? (fun kv => kv.fst == k)).map (fun kv => kv.snd)

/-- A `Star` observation: its identifying field plus the `ApiMixin` fields.
Equipment/context fields are omitted — the enrichment code never reads
them. -/
structure StarObs where
  star_name : String
  api : ApiState
deriving DecidableEq

/-- Outcome of `simbad.query_object` inside the star branch's `try`:
the call (or anything before the final save) raised, returned `None`,
or returned a one-row table. -/
inductive SimbadResult where
  | raise
  | noTable
  | table (t : List (String × String))
deriving DecidableEq

/-- Result of one enrichment branch: the observations saved (in order)
and the log records emitted. -/
structure StarOut where
  saves : List StarObs
  logs : List LogEntry
deriving DecidableEq

/-- The `observation_type == "star"` branch of `AddObservationView.post`
(views.py lines 211-253).  On an exception the `except` handler logs with
`logger.error` and saves the observation without API data; a `None` result
saves silently; a table stores the stringified payload, and when a positive
`plx_value` parses as a float the distances are computed before the single
save.  The function is total: no exception escapes the branch. -/
def star_post (obs : StarObs) (res : SimbadResult) : StarOut :=
  match res with
  | SimbadResult.raise =>
    { saves := [obs],
      logs := [{ level := LogLevel.error,
                 msg := "Failed to get SIMBAD data for " ++ obs.star_name }] }
  | SimbadResult.noTable => { saves := [obs], logs := [] }
  | SimbadResult.table t =>
    let obs1 : StarObs := { obs with api := { obs.api with api_payload := Option.some t } }
    match lookupCol t "plx_value" with
    | Option.none => { saves := [obs1], logs := [] }
    | Option.some v =>
      match parseDec v with
      | Option.none =>
        { saves := [obs1],
          logs := [{ level := LogLevel.warning,
                     msg := "Could not calculate distance for " ++ obs.star_name }] }
      | Option.some p =>
        if 0 < p then
          match calculate_distances_from_parallax obs1.api (PyVal.num p) with
          | Except.ok (api2, _, _) => { saves := [{ obs1 with api := api2 }], logs := [] }
          | Except.error _ => { saves := [obs1], logs := [] }
        else { saves := [obs1], logs := [] }

/-- A `SolarSystem` observation: the `celestial_body` choice plus the
`ApiMixin` fields. -/
structure SolarObs where
  celestial_body : String
  api : ApiState
deriving DecidableEq

/-- The `horizons_id_map` dictionary of views.py lines 262-272. -/
def horizons_id_map : String → Option String
  | "sun" => Option.some "10"
  | "moon" => Option.some "301"
  | "mercury" => Option.some "199"
  | "venus" => Option.some "299"
  | "mars" => Option.some "499"
  | "jupiter" => Option.some "599"
  | "saturn" => Option.some "699"
  | "uranus" => Option.some "799"
  | "neptune" => Option.some "899"
  | _ => Option.none

/-- Outcome of the JPL Horizons ephemerides call: raised, or a one-row
table of stringified cells. -/
inductive EphResult where
  | raise
  | table (t : List (String × String))
deriving DecidableEq

/-- Result of the solar-system branch: saved observations, emitted logs,
and whether the ephemeris collaborator was invoked at all. -/
structure SolarOut where
  saves : List SolarObs
  logs : List LogEntry
  ephemeris_called : Bool
deriving DecidableEq

/-- The `observation_type == "solar-system"` branch of
`AddObservationView.post` (views.py lines 254-316).  `celestial_body ==
"other"` saves immediately without any API call; an unmapped body raises
`ValueError` inside the `try`, which the handler converts to an error log
plus a save; a raised lookup likewise; otherwise the stringified ephemeris
row is stored and, when a positive `lighttime` parses, the distances are
computed (with an info log) before the single save. -/
def solar_post (obs : SolarObs) (lookup : String → EphResult) : SolarOut :=
  if obs.celestial_body = "other" then
    { saves := [obs], logs := [], ephemeris_called := false }
  else
    match horizons_id_map obs.celestial_body with
    | Option.none =>
      { saves := [obs],
        logs := [{ level := LogLevel.error,
                   msg := "Failed to get JPL Horizons data for " ++ obs.celestial_body }],
        ephemeris_called := false }
    | Option.some hid =>
      match lookup hid with
      | EphResult.raise =>
        { saves := [obs],
          logs := [{ level := LogLevel.error,
                     msg := "Failed to get JPL Horizons data for " ++ obs.celestial_body }],
          ephemeris_called := true }
      | EphResult.table t =>
        let obs1 : SolarObs := { obs with api := { obs.api with api_payload := Option.some t } }
        match lookupCol t "lighttime" with
        | Option.none => { saves := [obs1], logs := [], ephemeris_called := true }
        | Option.some v =>
          match parseDec v with
          | Option.none =>
            { saves := [obs1],
              logs := [{ level := LogLevel.warning,
                         msg := "Could not calculate distance for " ++ obs.celestial_body }],
              ephemeris_called := true }
          | Option.some lt =>
            if 0 < lt then
              match calculate_distances_from_lighttime obs1.api lt with
              | Except.ok api2 =>
                { saves := [{ obs1 with api := api2 }],
                  logs := [{ level := LogLevel.info,
                             msg := "Calculated distance for " ++ obs.celestial_body }],
                  ephemeris_called := true }
              | Except.error _ => { saves := [obs1], logs := [], ephemeris_called := true }
            else { saves := [obs1], logs := [], ephemeris_called := true }

/-- The `ApiMixin` fields of a freshly submitted observation: the forms never
populate them, and the model defaults are null. -/
def fresh_api : ApiState :=
  { api_payload := Option.none,
    distance_light_years := Option.none,
    distance_miles := Option.none }

/-- A solar-system observation as produced by `form.save(commit=False)`. -/
def new_solar (body : String) : SolarObs :=
  { celestial_body := body, api := fresh_api }

/-- The queryset filter of the `calculate_solar_system_distances` command
(line 38): `api_payload__isnull=False, distance_light_years__isnull=True`. -/
def eligible (o : SolarObs) : Bool :=
  o.api.api_payload.isSome && o.api.distance_light_years.isNone

/-- Outcome of one iteration of the command's loop for one observation. -/
inductive StepResult where
  | updated (o : SolarObs) (line : String)
  | failed (line : String)
  | skipped
deriving DecidableEq

/-- Whether a loop iteration saved an updated observation. -/
def StepResult.isUpdated : StepResult → Bool
  | StepResult.updated _ _ => true
  | _ => false

/-- Whether a loop iteration reported a per-item failure. -/
def StepResult.isFailed : StepResult → Bool
  | StepResult.failed _ => true
  | _ => false

/-- The body of the command's `for` loop (lines 44-66): skip unless the
payload is truthy and has a `lighttime` key; a `float` conversion failure is
caught and reported as a warning line; a positive light-time updates the
distances, saves, bumps the counter and writes a success line. -/
def handle_step (o : SolarObs) : StepResult :=
  match o.api.api_payload with
  | Option.none => StepResult.skipped
  | Option.some t =>
    if t.isEmpty then StepResult.skipped
    else
      match lookupCol t "lighttime" with
      | Option.none => StepResult.skipped
      | Option.some v =>
        match parseDec v with
        | Option.none =>
          StepResult.failed ("Could not calculate distance for " ++ o.celestial_body)
        | Option.some lt =>
          if 0 < lt then
            match calculate_distances_from_lighttime o.api lt with
            | Except.ok api2 =>
              StepResult.updated { o with api := api2 }
                ("Updated distances for " ++ o.celestial_body ++ " observation")
            | Except.error _ => StepResult.skipped
          else StepResult.skipped

/-- Accumulated result of the command: observations saved with new
distances, the `updated_count`, the success lines, and the per-item
failure (warning) lines. -/
structure HandleOut where
  saves : List SolarObs
  updated_count : ℕ
  success_lines : List String
  warning_lines : List String
deriving DecidableEq

/-- The command's loop over the filtered queryset, accumulating saves,
the counter and the output lines. -/
def handle_loop : List SolarObs → HandleOut
  | [] => { saves := [], updated_count := 0, success_lines := [], warning_lines := [] }
  | o :: rest =>
    let r := handle_loop rest
    match handle_step o with
    | StepResult.updated o1 line =>
      { saves := o1 :: r.saves,
        updated_count := r.updated_count + 1,
        success_lines := line :: r.success_lines,
        warning_lines := r.warning_lines }
    | StepResult.failed line =>
      { r with warning_lines := line :: r.warning_lines }
    | StepResult.skipped => r

/-- `Command.handle` of `calculate_solar_system_distances.py`: filter the
persisted solar-system observations to those with a payload and a null
`distance_light_years`, then run the loop. -/
def handle (db : List SolarObs) : HandleOut :=
  handle_loop (db.filter eligible)

/-- An `ObservingSession` row as `generate_slug` and `save` see it:
primary key (null before the first insert), the user's primary key, the
start date rendered `YYYY-MM-DD`, and the slug (`""` when blank). -/
structure Session where
  pk : Option ℕ
  user_pk : ℕ
  date_part : String
  slug : String
deriving DecidableEq

/-- `base_slug` of `ObservingSession.generate_slug` (line 100):
`slugify(str(self.user.pk))` — the decimal rendering of the user's pk, on
which `slugify` is the identity — joined to the session date. -/
def base_slug (s : Session) : String :=
  toString s.user_pk ++ "-" ++ s.date_part

/-- The candidate sequence of the collision loop: `base`, then `base-1`,
`base-2`, ... -/
def slug_candidate (base : String) : ℕ → String
  | 0 => base
  | n + 1 => base ++ "-" ++ toString (n + 1)

/-- The `while queryset.filter(slug=candidate).exists()` loop: walk the
candidate sequence from index `n` until a candidate is not taken.  The loop
in the source is unbounded; here it carries fuel, and `generate_slug` passes
enough fuel for one more candidate than there are taken slugs. -/
def find_free_slug (taken : List String) (base : String) : ℕ → ℕ → String
  | 0, n => slug_candidate base n
  | fuel + 1, n =>
    if slug_candidate base n ∈ taken then find_free_slug taken base fuel (n + 1)
    else slug_candidate base n

/-- The queryset the collision check runs against (lines 106-109): all
sessions, excluding the session itself by primary key when it has one. -/
def excluded_qs (sessions : List Session) (s : Session) : List Session :=
  match s.pk with
  | Option.none => sessions
  | Option.some p => sessions.filter (fun t => t.pk != Option.some p)

/-- `ObservingSession.generate_slug` (models.py lines 93-115): a no-op when
the slug is already set; otherwise build the base slug and walk the
candidate sequence until a slug not used by any other session is found. -/
def generate_slug (sessions : List Session) (s : Session) : Session :=
  if s.slug ≠ "" then s
  else
    let base := base_slug s
    let taken := (excluded_qs sessions s).map Session.slug
    { s with slug := find_free_slug taken base (taken.length + 1) 0 }

/-- What one iteration of `ObservingSession.save` observes: the first
`full_clean(exclude=['slug'])` raised, the second `full_clean()` raised, the
`super().save()` succeeded, or it raised `IntegrityError`. -/
inductive AttemptOutcome where
  | preCleanFail
  | postCleanFail
  | saveOk
  | integrityError
deriving DecidableEq

/-- How `ObservingSession.save` terminates. -/
inductive SaveResult where
  | saved (slug : String) (attempt : ℕ)
  | validationError (attempt : ℕ)
  | integrityRaised (attempt : ℕ)
  | fellThrough
deriving DecidableEq

/-- The `while attempts_remaining` loop of `ObservingSession.save`
(models.py lines 117-136).  `outcome i` is what the database/validation
does on attempt `i`; `gen i` is the slug `generate_slug` would produce on
attempt `i` (it only fills the slug when it is cleared).  A `full_clean`
failure propagates immediately; a successful save returns; an
`IntegrityError` decrements the budget, re-raising when it hits zero, and
otherwise clears the slug and retries.  `fellThrough` is the unreachable
exit of the `while` when the budget starts at zero. -/
def save_loop (outcome : ℕ → AttemptOutcome) (gen : ℕ → String) :
    ℕ → ℕ → Option String → SaveResult
  | 0, _, _ => SaveResult.fellThrough
  | r + 1, i, slug =>
    match outcome i with
    | AttemptOutcome.preCleanFail => SaveResult.validationError i
    | out =>
      let slug2 :=
        match slug with
        | Option.some sl => sl
        | Option.none => gen i
      match out with
      | AttemptOutcome.postCleanFail => SaveResult.validationError i
      | AttemptOutcome.saveOk => SaveResult.saved slug2 i
      | _ =>
        if r = 0 then SaveResult.integrityRaised i
        else save_loop outcome gen r (i + 1) Option.none

/-- `ObservingSession.save`: five attempts, starting with whatever slug the
session already carries (`Option.none` = blank on a fresh session). -/
def session_save (outcome : ℕ → AttemptOutcome) (gen : ℕ → String) : SaveResult :=
  save_loop outcome gen 5 0 Option.none

instance {ε α : Type} [DecidableEq ε] [DecidableEq α] : DecidableEq (Except ε α) :=
  fun x y =>
    match x, y with
    | Except.ok a, Except.ok b =>
      if h : a = b then Decidable.isTrue (by rw [h])
      else Decidable.isFalse (fun hc => h (Except.ok.injEq a b ▸ congrArg id hc |> fun hc2 => by
        cases hc; rfl))
    | Except.error a, Except.error b =>
      if h : a = b then Decidable.isTrue (by rw [h])
      else Decidable.isFalse (fun hc => h (by cases hc; rfl))
    | Except.ok _, Except.error _ => Decidable.isFalse (fun hc => Except.noConfusion hc)
    | Except.error _, Except.ok _ => Decidable.isFalse (fun hc => Except.noConfusion hc)

/- ------------------------------------------------------------------ -/
/- Helper lemmas                                                       -/
/- ------------------------------------------------------------------ -/

theorem has_catalog_data_reset (s : ApiState) :
    has_catalog_data (reset_distances s) = has_catalog_data s := rfl

/-- Every reachable branch of `calculate_distances_from_parallax` returns
normally: the method cannot raise. -/
theorem calc_parallax_ne_error (s : ApiState) (x : PyVal) (e : InvalidMeasurement) :
    calculate_distances_from_parallax s x ≠ Except.error e := by
  unfold calculate_distances_from_parallax
  by_cases h1 : has_catalog_data (reset_distances s) = false
  · simp [h1]
  · by_cases h2 : x = PyVal.none ∨ x = PyVal.str ""
    · simp [h1, h2]
    · cases h3 : pyDecimal x with
      | none => simp [h1, h2, h3]
      | some v =>
        by_cases h4 : v ≤ 0
        · simp [h1, h2, h3, h4]
        · simp [h1, h2, h3, h4]

/-- The method's result is exactly its normal-return value. -/
theorem calc_parallax_ok (s : ApiState) (x : PyVal) :
    calculate_distances_from_parallax s x = Except.ok (run_parallax s x) := by
  unfold run_parallax
  cases h : calculate_distances_from_parallax s x with
  | ok r => rfl
  | error e => exact absurd h (calc_parallax_ne_error s x e)

/-- Positive branch of the parallax method. -/
theorem calc_parallax_pos (s : ApiState) (p : ℚ) (hp : 0 < p)
    (hd : has_catalog_data s = true) :
    calculate_distances_from_parallax s (PyVal.num p) =
      Except.ok
        ({ s with
            distance_light_years := Option.some (3260 / p),
            distance_miles := Option.some (3260 / p * 5880000000000) },
          Option.some (3260 / p), Option.some (3260 / p * 5880000000000)) := by
  have h1 : ¬ has_catalog_data (reset_distances s) = false := by
    rw [has_catalog_data_reset, hd]; simp
  have h4 : ¬ p ≤ 0 := not_le.mpr hp
  unfold calculate_distances_from_parallax
  simp [h1, pyDecimal, h4, reset_distances]
  exact hd

/-- Every input without a positive numeric value takes an early-return
branch: the fields are reset and `(None, None)` comes back, normally. -/
theorem calc_parallax_invalid (s : ApiState) (x : PyVal)
    (hx : ∀ v, pyDecimal x = Option.some v → v ≤ 0) :
    calculate_distances_from_parallax s x =
      Except.ok (reset_distances s, Option.none, Option.none) := by
  unfold calculate_distances_from_parallax
  by_cases h1 : has_catalog_data (reset_distances s) = false
  · simp [h1]
  · by_cases h2 : x = PyVal.none ∨ x = PyVal.str ""
    · simp [h1, h2]
    · cases h3 : pyDecimal x with
      | none => simp [h1, h2, h3]
      | some v => simp [h1, h2, h3, hx v h3]

/-- Without catalog data the method resets and returns `(None, None)`
regardless of the input. -/
theorem calc_parallax_no_data (s : ApiState) (x : PyVal)
    (hd : has_catalog_data s = false) :
    calculate_distances_from_parallax s x =
      Except.ok (reset_distances s, Option.none, Option.none) := by
  have h1 : has_catalog_data (reset_distances s) = false := by
    rw [has_catalog_data_reset]; exact hd
  unfold calculate_distances_from_parallax
  simp [h1]

/-- Half-even rounding moves a rational by at most one half. -/
theorem roundHalfEven_close (y : ℚ) : |(roundHalfEven y : ℚ) - y| ≤ 1 / 2 := by
  have h1 : (⌊y⌋ : ℚ) ≤ y := Int.floor_le y
  have h2 : y < ⌊y⌋ + 1 := Int.lt_floor_add_one y
  unfold roundHalfEven
  split_ifs with ha hb hc <;> rw [abs_sub_le_iff] <;> constructor <;>
    push_cast <;> linarith

/-- Quantizing to 2 fractional digits moves a value by at most `1/200`. -/
theorem quantize2_close (x : ℚ) : |quantize2 x - x| ≤ 1 / 200 := by
  have h := roundHalfEven_close (100 * x)
  have heq : quantize2 x - x = ((roundHalfEven (100 * x) : ℚ) - 100 * x) / 100 := by
    unfold quantize2; ring
  rw [heq, abs_div]
  rw [show |(100 : ℚ)| = 100 by norm_num]
  linarith

/-- A quantized value is an integer multiple of `1/100`: it has exactly
2 fractional digits. -/
theorem quantize2_den (x : ℚ) : (100 * quantize2 x).den = 1 := by
  unfold quantize2
  rw [mul_comm, div_mul_cancel₀ _ (by norm_num : (100 : ℚ) ≠ 0)]
  exact Rat.den_intCast _

/-- The collision loop returns the first candidate, from index `n` on, that
is not taken, provided some candidate within the fuel budget is free. -/
theorem find_free_slug_spec (taken : List String) (base : String) :
    ∀ fuel n, (∃ k, k ≤ fuel ∧ slug_candidate base (n + k) ∉ taken) →
      ∃ k, k ≤ fuel ∧ find_free_slug taken base fuel n = slug_candidate base (n + k) ∧
        slug_candidate base (n + k) ∉ taken ∧
        ∀ j, j < k → slug_candidate base (n + j) ∈ taken := by
  intro fuel
  induction fuel with
  | zero =>
    intro n h
    obtain ⟨k, hk, hfree⟩ := h
    have hk0 : k = 0 := Nat.le_zero.mp hk
    subst hk0
    exact ⟨0, le_refl 0, by simp [find_free_slug], hfree, by omega⟩
  | succ f ih =>
    intro n h
    by_cases hmem : slug_candidate base n ∈ taken
    · obtain ⟨k, hk, hfree⟩ := h
      cases k with
      | zero => simp only [Nat.add_zero] at hfree; exact absurd hmem hfree
      | succ k1 =>
        have h2 : ∃ k, k ≤ f ∧ slug_candidate base ((n + 1) + k) ∉ taken := by
          refine ⟨k1, by omega, ?_⟩
          rw [show (n + 1) + k1 = n + (k1 + 1) by omega]
          exact hfree
        obtain ⟨k2, hk2, heq, hfree2, hprev⟩ := ih (n + 1) h2
        refine ⟨k2 + 1, by omega, ?_, ?_, ?_⟩
        · rw [find_free_slug, if_pos hmem, heq]
          rw [show n + (k2 + 1) = (n + 1) + k2 by omega]
        · rw [show n + (k2 + 1) = (n + 1) + k2 by omega]; exact hfree2
        · intro j hj
          cases j with
          | zero => simpa using hmem
          | succ j1 =>
            rw [show n + (j1 + 1) = (n + 1) + j1 by omega]
            exact hprev j1 (by omega)
    · exact ⟨0, by omega, by rw [find_free_slug, if_neg hmem]; simp, by simpa using hmem,
        by omega⟩

/-- The command's counter counts exactly the loop iterations that saved an
updated observation. -/
theorem handle_loop_count (l : List SolarObs) :
    (handle_loop l).updated_count = l.countP (fun o => (handle_step o).isUpdated) := by
  induction l with
  | nil => rfl
  | cons o rest ih =>
    rw [handle_loop]
    cases h : handle_step o <;>
      simp [List.countP_cons, h, StepResult.isUpdated, ih]

/-- The command's warning lines count exactly the loop iterations whose
`float` conversion failed. -/
theorem handle_loop_failures (l : List SolarObs) :
    (handle_loop l).warning_lines.length = l.countP (fun o => (handle_step o).isFailed) := by
  induction l with
  | nil => rfl
  | cons o rest ih =>
    rw [handle_loop]
    cases h : handle_step o <;>
      simp [List.countP_cons, h, StepResult.isFailed, ih]

/-- The loop treats every observation independently: splitting the queryset
anywhere splits saves, counter and report lines — a failing item cannot
abort the processing of the items after it. -/
theorem handle_loop_append (xs ys : List SolarObs) :
    handle_loop (xs ++ ys) =
      { saves := (handle_loop xs).saves ++ (handle_loop ys).saves,
        updated_count := (handle_loop xs).updated_count + (handle_loop ys).updated_count,
        success_lines := (handle_loop xs).success_lines ++ (handle_loop ys).success_lines,
        warning_lines := (handle_loop xs).warning_lines ++ (handle_loop ys).warning_lines } := by
  induction xs with
  | nil => simp [handle_loop]
  | cons o rest ih =>
    rw [List.cons_append, handle_loop, handle_loop, ih]
    cases h : handle_step o with
    | updated o1 line => simp [h, HandleOut.mk.injEq]; omega
    | failed line => simp [h]
    | skipped => simp [h]

/-- If the method returns `.ok r` then its normal-return value is `r`. -/
theorem run_parallax_eq (s : ApiState) (x : PyVal) (r : ApiState × Option ℚ × Option ℚ)
    (h : calculate_distances_from_parallax s x = Except.ok r) : run_parallax s x = r := by
  have h2 : Except.ok (ε := InvalidMeasurement) (run_parallax s x) = Except.ok r := by
    rw [← h, calc_parallax_ok]
  exact Except.ok.inj h2

/-- Each call either takes an early-return branch (fields reset, `(None,
None)` returned) or computes both distances from a positive parsed value. -/
theorem calc_parallax_cases (s : ApiState) (x : PyVal) :
    calculate_distances_from_parallax s x =
      Except.ok (reset_distances s, Option.none, Option.none) ∨
    ∃ v, 0 < v ∧ pyDecimal x = Option.some v ∧
      calculate_distances_from_parallax s x =
        Except.ok
          ({ s with
              distance_light_years := Option.some (3260 / v),
              distance_miles := Option.some (3260 / v * 5880000000000) },
            Option.some (3260 / v), Option.some (3260 / v * 5880000000000)) := by
  unfold calculate_distances_from_parallax
  by_cases h1 : has_catalog_data (reset_distances s) = false
  · left; simp [h1]
  · by_cases h2 : x = PyVal.none ∨ x = PyVal.str ""
    · left; simp [h1, h2]
    · cases h3 : pyDecimal x with
      | none => left; simp [h1, h2, h3]
      | some v =>
        by_cases h4 : v ≤ 0
        · left; simp [h1, h2, h3, h4]
        · right
          refine ⟨v, lt_of_not_le h4, rfl, ?_⟩
          have ht : has_catalog_data (reset_distances s) = true := by
            revert h1; cases has_catalog_data (reset_distances s) <;> simp
          simp [h1, h2, h3, h4, reset_distances]
          exact ht

/-- Positive branch of the (spec-modelled) light-time calculation. -/
theorem calc_lighttime_pos (s : ApiState) (t : ℚ) (ht : 0 < t) :
    calculate_distances_from_lighttime s t =
      Except.ok
        { s with
            distance_light_years := Option.some (t / 525600),
            distance_miles := Option.some (t / 525600 * 5880000000000) } := by
  unfold calculate_distances_from_lighttime
  rw [if_neg (not_le.mpr ht)]

/-- Evaluation: the string `"4.5"` parses to `9/2`. -/
theorem parseDec_45 : parseDec "4.5" = Option.some ((9 : ℚ) / 2) := by
  unfold parseDec
  rw [show parseDecSyn (stripChars (String.toList "4.5")) =
      Option.some { neg := false, mantNum := 45, fracLen := 1,
                    expNeg := false, expVal := 0 } by decide]
  show Option.some (DecLit.toRat _) = _
  norm_num [DecLit.toRat]

/-- Evaluation: the string `"4.0"` parses to `4`. -/
theorem parseDec_40 : parseDec "4.0" = Option.some ((4 : ℚ)) := by
  unfold parseDec
  rw [show parseDecSyn (stripChars (String.toList "4.0")) =
      Option.some { neg := false, mantNum := 40, fracLen := 1,
                    expNeg := false, expVal := 0 } by decide]
  show Option.some (DecLit.toRat _) = _
  norm_num [DecLit.toRat]

/-- Evaluation: the string `"abc"` does not parse. -/
theorem parseDec_abc : parseDec "abc" = Option.none := by
  unfold parseDec
  rw [show parseDecSyn (stripChars (String.toList "abc")) = Option.none by decide]
  rfl

/-- The star branch on a table whose `plx_value` parses positive: payload
stored, distances computed, one save, no log. -/
theorem star_post_table_pos (name : String) (t : List (String × String))
    (v : String) (p : ℚ) (hcol : lookupCol t "plx_value" = Option.some v)
    (hpars : parseDec v = Option.some p) (hp : 0 < p) (hne : t.isEmpty = false) :
    star_post { star_name := name, api := fresh_api } (SimbadResult.table t) =
      { saves := [{ star_name := name,
                    api := { api_payload := Option.some t,
                             distance_light_years := Option.some (3260 / p),
                             distance_miles :=
                               Option.some (3260 / p * 5880000000000) } }],
        logs := [] } := by
  have hd : has_catalog_data
      { api_payload := Option.some t, distance_light_years := Option.none,
        distance_miles := Option.none } = true := by
    unfold has_catalog_data
    simp [hne]
  simp only [star_post, hcol, hpars, if_pos hp, fresh_api,
    calc_parallax_pos _ p hp hd]

/-- The solar-system branch on a mapped body whose ephemeris row carries a
positive `lighttime`: payload stored, distances computed, one save, one
info log, collaborator invoked. -/
theorem solar_post_table_pos (body hid : String) (t : List (String × String))
    (v : String) (lt : ℚ) (lookup : String → EphResult)
    (hbody : (body = "other") = False) (hmap : horizons_id_map body = Option.some hid)
    (hlk : lookup hid = EphResult.table t)
    (hcol : lookupCol t "lighttime" = Option.some v)
    (hpars : parseDec v = Option.some lt) (hlt : 0 < lt) :
    solar_post (new_solar body) lookup =
      { saves := [{ celestial_body := body,
                    api := { api_payload := Option.some t,
                             distance_light_years := Option.some (lt / 525600),
                             distance_miles :=
                               Option.some (lt / 525600 * 5880000000000) } }],
        logs := [{ level := LogLevel.info, msg := "Calculated distance for " ++ body }],
        ephemeris_called := true } := by
  have hb2 : ¬ (new_solar body).celestial_body = "other" := by
    rw [show (new_solar body).celestial_body = body from rfl, hbody]; exact id
  simp only [solar_post, if_neg hb2, new_solar, fresh_api, hmap, hlk, hcol, hpars,
    if_pos hlt, calc_lighttime_pos _ lt hlt]
  rw [if_neg (show ¬ body = "other" from fun h => hbody ▸ h)]

/-- A loop iteration whose payload carries a positive parsing `lighttime`
updates and saves. -/
theorem handle_step_pos (o : SolarObs) (t : List (String × String)) (v : String)
    (lt : ℚ) (hpay : o.api.api_payload = Option.some t) (hne : t.isEmpty = false)
    (hcol : lookupCol t "lighttime" = Option.some v)
    (hpars : parseDec v = Option.some lt) (hlt : 0 < lt) :
    handle_step o =
      StepResult.updated
        { o with api := { o.api with
            distance_light_years := Option.some (lt / 525600),
            distance_miles := Option.some (lt / 525600 * 5880000000000) } }
        ("Updated distances for " ++ o.celestial_body ++ " observation") := by
  simp only [handle_step, hpay, hne, Bool.false_eq_true, if_false, hcol, hpars,
    if_pos hlt, calc_lighttime_pos o.api lt hlt]

/-- A loop iteration whose `lighttime` cell does not parse as a float
reports a per-item failure. -/
theorem handle_step_fail (o : SolarObs) (t : List (String × String)) (v : String)
    (hpay : o.api.api_payload = Option.some t) (hne : t.isEmpty = false)
    (hcol : lookupCol t "lighttime" = Option.some v)
    (hpars : parseDec v = Option.none) :
    handle_step o =
      StepResult.failed ("Could not calculate distance for " ++ o.celestial_body) := by
  simp only [handle_step, hpay, hne, Bool.false_eq_true, if_false, hcol, hpars]

/- ------------------------------------------------------------------ -/
/- Claims                                                              -/
/- ------------------------------------------------------------------ -/

/-- C1: for every light-time t > 0 (minutes), the light-time distance
calculation computes `distance_light_years = t / 525600` and
`distance_miles = distance_light_years * 5880000000000` and stores both on
the observation; the solar-system enrichment branch invokes it exactly so
(shown on a mars observation whose ephemeris row carries lighttime 4.5). -/
theorem c1_from_light_time_positive :
    (∀ (s : ApiState) (t : ℚ), 0 < t →
      calculate_distances_from_lighttime s t =
        Except.ok
          { s with
              distance_light_years := Option.some (t / 525600),
              distance_miles := Option.some (t / 525600 * 5880000000000) })
    ∧ solar_post (new_solar "mars") (fun _ => EphResult.table [("lighttime", "4.5")]) =
        { saves := [{ celestial_body := "mars",
                      api := { api_payload := Option.some [("lighttime", "4.5")],
                               distance_light_years := Option.some ((9 : ℚ) / 2 / 525600),
                               distance_miles :=
                                 Option.some ((9 : ℚ) / 2 / 525600 * 5880000000000) } }],
          logs := [{ level := LogLevel.info, msg := "Calculated distance for mars" }],
          ephemeris_called := true } := by
  constructor
  · exact calc_lighttime_pos
  · exact solar_post_table_pos "mars" "499" [("lighttime", "4.5")] "4.5" (9 / 2)
      (fun _ => EphResult.table [("lighttime", "4.5")]) (by simp) rfl rfl
      (by decide) parseDec_45 (by norm_num)

/-- C1 witness: the light-time calculation at t = 4.5 minutes. -/
theorem c1_from_light_time_positive_witness :
    (0 : ℚ) < 9 / 2 ∧
      calculate_distances_from_lighttime fresh_api (9 / 2) =
        Except.ok
          { fresh_api with
              distance_light_years := Option.some ((9 : ℚ) / 2 / 525600),
              distance_miles := Option.some ((9 : ℚ) / 2 / 525600 * 5880000000000) } :=
  ⟨by norm_num, c1_from_light_time_positive.1 fresh_api (9 / 2) (by norm_num)⟩

/-- C2 counterexample: at the zero input the parallax method does not raise —
it returns normally with `(None, None)` — refuting the claim that
non-numeric, zero or negative inputs raise `InvalidMeasurement`. -/
theorem c2_invalid_parallax_counterexample :
    calculate_distances_from_parallax
        { api_payload := Option.some [("plx_value", "8.0")],
          distance_light_years := Option.none, distance_miles := Option.none }
        (PyVal.num 0) ≠ Except.error InvalidMeasurement.invalid ∧
    calculate_distances_from_parallax
        { api_payload := Option.some [("plx_value", "8.0")],
          distance_light_years := Option.none, distance_miles := Option.none }
        (PyVal.num 0) =
      Except.ok
        ({ api_payload := Option.some [("plx_value", "8.0")],
           distance_light_years := Option.none, distance_miles := Option.none },
          Option.none, Option.none) := by
  have h := calc_parallax_invalid
      { api_payload := Option.some [("plx_value", "8.0")],
        distance_light_years := Option.none, distance_miles := Option.none }
      (PyVal.num 0)
      (fun v hv => by
        have h0 : (0 : ℚ) = v := Option.some.inj hv
        rw [← h0])
  constructor
  · rw [h]; simp
  · exact h

/-- C2 (amended): for every non-numeric, zero or negative input the parallax
method returns `(None, None)` without raising, and both distance fields are
null on the observation after the call. -/
theorem c2_invalid_parallax_no_raise (s : ApiState) (x : PyVal)
    (hx : ∀ v, pyDecimal x = Option.some v → v ≤ 0) :
    calculate_distances_from_parallax s x =
      Except.ok (reset_distances s, Option.none, Option.none) ∧
    (reset_distances s).distance_light_years = Option.none ∧
    (reset_distances s).distance_miles = Option.none :=
  ⟨calc_parallax_invalid s x hx, rfl, rfl⟩

/-- C2 witness: the non-numeric input `"abc"` on an observation with
previously stored distances. -/
theorem c2_invalid_parallax_no_raise_witness :
    calculate_distances_from_parallax
        { api_payload := Option.some [("plx_value", "8.0")],
          distance_light_years := Option.some 1, distance_miles := Option.some 2 }
        (PyVal.str "abc") =
      Except.ok
        ({ api_payload := Option.some [("plx_value", "8.0")],
           distance_light_years := Option.none, distance_miles := Option.none },
          Option.none, Option.none) :=
  (c2_invalid_parallax_no_raise
    { api_payload := Option.some [("plx_value", "8.0")],
      distance_light_years := Option.some 1, distance_miles := Option.some 2 }
    (PyVal.str "abc")
    (fun v hv => by
      rw [show pyDecimal (PyVal.str "abc") = Option.none from parseDec_abc] at hv
      exact Option.noConfusion hv)).1

/-- C3 counterexample: when the SIMBAD lookup raises for a star observation
the branch emits no warning-level entry (the handler logs at error level),
refuting the claim that exactly one warning-level log entry is emitted. -/
theorem c3_star_lookup_error_counterexample :
    ¬ ((star_post { star_name := "Mira", api := fresh_api } SimbadResult.raise).logs.countP
        (fun l => decide (l.level = LogLevel.warning)) = 1) := by
  decide

/-- C3 (amended): a star observation whose external lookup raises is saved
exactly once, with null payload and null distance fields, and exactly one
log entry is emitted — at error level, not warning level; the branch
returns normally, so no exception reaches the caller. -/
theorem c3_star_lookup_error_saved_logged (name : String) :
    star_post { star_name := name, api := fresh_api } SimbadResult.raise =
      { saves := [{ star_name := name, api := fresh_api }],
        logs := [{ level := LogLevel.error,
                   msg := "Failed to get SIMBAD data for " ++ name }] } ∧
    fresh_api.api_payload = Option.none ∧
    fresh_api.distance_light_years = Option.none ∧
    fresh_api.distance_miles = Option.none :=
  ⟨rfl, rfl, rfl, rfl⟩

/-- C4: for every positive parallax p reaching the computation (models.py
lines 228-241, reached when catalog data is present), the method yields
exactly `distance_light_years = 3260 / p` and `distance_miles = that *
5880000000000` in the exact-arithmetic model of `Decimal` — a fortiori
within rounding to one decimal at the storage boundary — and the star
enrichment branch realises it end to end at parallax 4.0. -/
theorem c4_parallax_positive :
    (∀ (s : ApiState) (p : ℚ), 0 < p → has_catalog_data s = true →
      calculate_distances_from_parallax s (PyVal.num p) =
        Except.ok
          ({ s with
              distance_light_years := Option.some (3260 / p),
              distance_miles := Option.some (3260 / p * 5880000000000) },
            Option.some (3260 / p), Option.some (3260 / p * 5880000000000)) ∧
      |quantize2 (3260 / p) - 3260 / p| ≤ 1 / 20)
    ∧ star_post { star_name := "Mira", api := fresh_api }
        (SimbadResult.table [("plx_value", "4.0")]) =
      { saves := [{ star_name := "Mira",
                    api := { api_payload := Option.some [("plx_value", "4.0")],
                             distance_light_years := Option.some 815,
                             distance_miles := Option.some 4792200000000000 } }],
        logs := [] } := by
  constructor
  · intro s p hp hd
    refine ⟨calc_parallax_pos s p hp hd, ?_⟩
    have h := quantize2_close (3260 / p)
    have : (1 : ℚ) / 200 ≤ 1 / 20 := by norm_num
    linarith
  · rw [star_post_table_pos "Mira" [("plx_value", "4.0")] "4.0" 4 (by decide)
      parseDec_40 (by norm_num) (by decide)]
    norm_num

/-- C4 witness: parallax 4.0 on an observation with catalog data. -/
theorem c4_parallax_positive_witness :
    (0 : ℚ) < 4 ∧
    calculate_distances_from_parallax
        { api_payload := Option.some [("plx_value", "4.0")],
          distance_light_years := Option.none, distance_miles := Option.none }
        (PyVal.num 4) =
      Except.ok
        ({ api_payload := Option.some [("plx_value", "4.0")],
           distance_light_years := Option.some ((3260 : ℚ) / 4),
           distance_miles := Option.some ((3260 : ℚ) / 4 * 5880000000000) },
          Option.some ((3260 : ℚ) / 4), Option.some ((3260 : ℚ) / 4 * 5880000000000)) :=
  ⟨by norm_num,
    (c4_parallax_positive.1
      { api_payload := Option.some [("plx_value", "4.0")],
        distance_light_years := Option.none, distance_miles := Option.none }
      4 (by norm_num) (by decide)).1⟩

/-- C5: the batch command scans exactly the persisted solar-system
observations with a payload and a null distance (the filtered queryset);
its reported count counts exactly the rows updated from their stored
light-time and its warning lines exactly the per-item failures; splitting
the scanned list anywhere splits every output additively, so a failure on
one observation never prevents processing of the remaining ones — shown
also on a concrete run where a failing item precedes a succeeding one. -/
theorem c5_batch_command_scan :
    (∀ db : List SolarObs,
      (handle db).updated_count =
        (db.filter eligible).countP (fun o => (handle_step o).isUpdated)) ∧
    (∀ db : List SolarObs,
      (handle db).warning_lines.length =
        (db.filter eligible).countP (fun o => (handle_step o).isFailed)) ∧
    (∀ xs ys : List SolarObs,
      handle_loop (xs ++ ys) =
        { saves := (handle_loop xs).saves ++ (handle_loop ys).saves,
          updated_count := (handle_loop xs).updated_count + (handle_loop ys).updated_count,
          success_lines := (handle_loop xs).success_lines ++ (handle_loop ys).success_lines,
          warning_lines :=
            (handle_loop xs).warning_lines ++ (handle_loop ys).warning_lines }) ∧
    handle
        [{ celestial_body := "mars",
           api := { api_payload := Option.some [("lighttime", "abc")],
                    distance_light_years := Option.none, distance_miles := Option.none } },
         { celestial_body := "venus",
           api := { api_payload := Option.some [("lighttime", "4.5")],
                    distance_light_years := Option.none, distance_miles := Option.none } },
         { celestial_body := "moon", api := fresh_api }] =
      { saves := [{ celestial_body := "venus",
                    api := { api_payload := Option.some [("lighttime", "4.5")],
                             distance_light_years := Option.some ((9 : ℚ) / 2 / 525600),
                             distance_miles :=
                               Option.some ((9 : ℚ) / 2 / 525600 * 5880000000000) } }],
        updated_count := 1,
        success_lines := ["Updated distances for venus observation"],
        warning_lines := ["Could not calculate distance for mars"] } := by
  refine ⟨fun db => handle_loop_count _, fun db => handle_loop_failures _,
    handle_loop_append, ?_⟩
  have hbad : handle_step
      { celestial_body := "mars",
        api := { api_payload := Option.some [("lighttime", "abc")],
                 distance_light_years := Option.none, distance_miles := Option.none } } =
      StepResult.failed ("Could not calculate distance for " ++ "mars") :=
    handle_step_fail _ [("lighttime", "abc")] "abc" rfl (by decide) (by decide) parseDec_abc
  have hgood : handle_step
      { celestial_body := "venus",
        api := { api_payload := Option.some [("lighttime", "4.5")],
                 distance_light_years := Option.none, distance_miles := Option.none } } =
      StepResult.updated
        { celestial_body := "venus",
          api := { api_payload := Option.some [("lighttime", "4.5")],
                   distance_light_years := Option.some ((9 : ℚ) / 2 / 525600),
                   distance_miles :=
                     Option.some ((9 : ℚ) / 2 / 525600 * 5880000000000) } }
        ("Updated distances for " ++ "venus" ++ " observation") :=
    handle_step_pos _ [("lighttime", "4.5")] "4.5" (9 / 2) rfl (by decide) (by decide)
      parseDec_45 (by norm_num)
  unfold handle
  rw [show List.filter eligible
      [{ celestial_body := "mars",
         api := { api_payload := Option.some [("lighttime", "abc")],
                  distance_light_years := Option.none, distance_miles := Option.none } },
       { celestial_body := "venus",
         api := { api_payload := Option.some [("lighttime", "4.5")],
                  distance_light_years := Option.none, distance_miles := Option.none } },
       ({ celestial_body := "moon", api := fresh_api } : SolarObs)] =
      [{ celestial_body := "mars",
         api := { api_payload := Option.some [("lighttime", "abc")],
                  distance_light_years := Option.none, distance_miles := Option.none } },
       { celestial_body := "venus",
         api := { api_payload := Option.some [("lighttime", "4.5")],
                  distance_light_years := Option.none, distance_miles := Option.none } }] by
    simp [eligible, fresh_api]]
  simp only [handle_loop, hbad, hgood]
  simp

/-- C6: a solar-system observation with `celestial_body = "other"` never
invokes the ephemeris collaborator (the branch result is the same for every
possible lookup and the invocation flag stays false) and is saved exactly
once with null payload and null distance fields. -/
theorem c6_solar_other_no_enrichment (lookup : String → EphResult) :
    solar_post (new_solar "other") lookup =
      { saves := [new_solar "other"], logs := [], ephemeris_called := false } ∧
    (new_solar "other").api.api_payload = Option.none ∧
    (new_solar "other").api.distance_light_years = Option.none ∧
    (new_solar "other").api.distance_miles = Option.none :=
  ⟨rfl, rfl, rfl, rfl⟩

/-- C7: slug generation is a no-op when the slug is set; the collision
check excludes the session itself by primary key; otherwise the assigned
slug is the first free candidate of `base`, `base-1`, `base-2`, ... against
the other sessions' slugs; concretely, two sessions of user 7 on 2024-01-01
receive `7-2024-01-01` and `7-2024-01-01-1`, and a session regenerating its
own slug keeps it. -/
theorem c7_slug_generation :
    (∀ (sessions : List Session) (s : Session), s.slug ≠ "" →
      generate_slug sessions s = s) ∧
    (∀ (sessions : List Session) (s : Session) (p : ℕ), s.pk = Option.some p →
      generate_slug sessions s =
        generate_slug (sessions.filter (fun t => t.pk != Option.some p)) s) ∧
    (∀ (sessions : List Session) (s : Session), s.slug = "" →
      (∃ k, k ≤ ((excluded_qs sessions s).map Session.slug).length + 1 ∧
        slug_candidate (base_slug s) k ∉ (excluded_qs sessions s).map Session.slug) →
      ∃ k, (generate_slug sessions s).slug = slug_candidate (base_slug s) k ∧
        slug_candidate (base_slug s) k ∉ (excluded_qs sessions s).map Session.slug ∧
        ∀ j, j < k →
          slug_candidate (base_slug s) j ∈ (excluded_qs sessions s).map Session.slug) ∧
    (generate_slug []
        { pk := Option.none, user_pk := 7, date_part := "2024-01-01", slug := "" } =
      { pk := Option.none, user_pk := 7, date_part := "2024-01-01",
        slug := "7-2024-01-01" } ∧
    generate_slug
        [{ pk := Option.some 1, user_pk := 7, date_part := "2024-01-01",
           slug := "7-2024-01-01" }]
        { pk := Option.none, user_pk := 7, date_part := "2024-01-01", slug := "" } =
      { pk := Option.none, user_pk := 7, date_part := "2024-01-01",
        slug := "7-2024-01-01-1" } ∧
    generate_slug
        [{ pk := Option.some 1, user_pk := 7, date_part := "2024-01-01",
           slug := "7-2024-01-01" }]
        { pk := Option.some 1, user_pk := 7, date_part := "2024-01-01", slug := "" } =
      { pk := Option.some 1, user_pk := 7, date_part := "2024-01-01",
        slug := "7-2024-01-01" }) := by
  refine ⟨?_, ?_, ?_, by decide, by decide, by decide⟩
  · intro sessions s h
    unfold generate_slug
    rw [if_pos h]
  · intro sessions s p hp
    have hqs : excluded_qs (sessions.filter (fun t => t.pk != Option.some p)) s =
        excluded_qs sessions s := by
      simp only [excluded_qs, hp]
      rw [List.filter_filter]
      apply List.filter_congr
      intro a _
      rw [Bool.and_self]
    by_cases hslug : s.slug ≠ ""
    · unfold generate_slug
      rw [if_pos hslug, if_pos hslug]
    · unfold generate_slug
      rw [if_neg hslug, if_neg hslug, hqs]
  · intro sessions s hslug hex
    have hneg : ¬ s.slug ≠ "" := fun h => h hslug
    obtain ⟨k, hk, hfree⟩ := hex
    obtain ⟨k2, hk2, heq, hfree2, hprev⟩ :=
      find_free_slug_spec ((excluded_qs sessions s).map Session.slug) (base_slug s)
        (((excluded_qs sessions s).map Session.slug).length + 1) 0
        ⟨k, hk, by simpa using hfree⟩
    refine ⟨k2, ?_, by simpa using hfree2, fun j hj => by simpa using hprev j hj⟩
    unfold generate_slug
    rw [if_neg hneg]
    simpa using heq

/-- C7 witness: idempotence on a session with a set slug, and the collision
resolution for a second session of user 7 on 2024-01-01. -/
theorem c7_slug_generation_witness :
    generate_slug []
        { pk := Option.none, user_pk := 7, date_part := "2024-01-01", slug := "x" } =
      { pk := Option.none, user_pk := 7, date_part := "2024-01-01", slug := "x" } ∧
    (∃ k, (generate_slug
          [{ pk := Option.some 1, user_pk := 7, date_part := "2024-01-01",
             slug := "7-2024-01-01" }]
          { pk := Option.none, user_pk := 7, date_part := "2024-01-01",
            slug := "" }).slug =
        slug_candidate
          (base_slug
            { pk := Option.none, user_pk := 7, date_part := "2024-01-01", slug := "" }) k ∧
      slug_candidate
          (base_slug
            { pk := Option.none, user_pk := 7, date_part := "2024-01-01", slug := "" }) k ∉
        (excluded_qs
            [{ pk := Option.some 1, user_pk := 7, date_part := "2024-01-01",
               slug := "7-2024-01-01" }]
            { pk := Option.none, user_pk := 7, date_part := "2024-01-01",
              slug := "" }).map Session.slug ∧
      ∀ j, j < k →
        slug_candidate
            (base_slug
              { pk := Option.none, user_pk := 7, date_part := "2024-01-01",
                slug := "" }) j ∈
          (excluded_qs
              [{ pk := Option.some 1, user_pk := 7, date_part := "2024-01-01",
                 slug := "7-2024-01-01" }]
              { pk := Option.none, user_pk := 7, date_part := "2024-01-01",
                slug := "" }).map Session.slug) :=
  ⟨c7_slug_generation.1 [] _ (by decide),
    c7_slug_generation.2.2.1 _ _ rfl ⟨1, by decide, by decide⟩⟩

/-- C8: the session save loop attempts the validate-slug-save cycle up to 5
times: with integrity errors on every attempt it re-raises on the 5th; an
integrity-error prefix followed by a successful write saves, with the slug
cleared and regenerated on the final attempt; a validation failure (from
either `full_clean` call) propagates at the attempt where it occurs. -/
theorem c8_save_retries :
    (∀ (outcome : ℕ → AttemptOutcome) (gen : ℕ → String),
      (∀ i, i < 5 → outcome i = AttemptOutcome.integrityError) →
      session_save outcome gen = SaveResult.integrityRaised 4) ∧
    (∀ (outcome : ℕ → AttemptOutcome) (gen : ℕ → String) (k : ℕ), k < 5 →
      (∀ j, j < k → outcome j = AttemptOutcome.integrityError) →
      outcome k = AttemptOutcome.saveOk →
      session_save outcome gen = SaveResult.saved (gen k) k) ∧
    (∀ (outcome : ℕ → AttemptOutcome) (gen : ℕ → String) (k : ℕ), k < 5 →
      (∀ j, j < k → outcome j = AttemptOutcome.integrityError) →
      (outcome k = AttemptOutcome.preCleanFail ∨
        outcome k = AttemptOutcome.postCleanFail) →
      session_save outcome gen = SaveResult.validationError k) := by
  refine ⟨?_, ?_, ?_⟩
  · intro outcome gen h
    simp [session_save, save_loop, h 0 (by norm_num), h 1 (by norm_num),
      h 2 (by norm_num), h 3 (by norm_num), h 4 (by norm_num)]
  · intro outcome gen k hk5 hpre hk
    interval_cases k
    · simp [session_save, save_loop, hk]
    · simp [session_save, save_loop, hpre 0 (by norm_num), hk]
    · simp [session_save, save_loop, hpre 0 (by norm_num), hpre 1 (by norm_num), hk]
    · simp [session_save, save_loop, hpre 0 (by norm_num), hpre 1 (by norm_num),
        hpre 2 (by norm_num), hk]
    · simp [session_save, save_loop, hpre 0 (by norm_num), hpre 1 (by norm_num),
        hpre 2 (by norm_num), hpre 3 (by norm_num), hk]
  · intro outcome gen k hk5 hpre hval
    interval_cases k
    · rcases hval with hv | hv <;> simp [session_save, save_loop, hv]
    · rcases hval with hv | hv <;>
        simp [session_save, save_loop, hpre 0 (by norm_num), hv]
    · rcases hval with hv | hv <;>
        simp [session_save, save_loop, hpre 0 (by norm_num), hpre 1 (by norm_num), hv]
    · rcases hval with hv | hv <;>
        simp [session_save, save_loop, hpre 0 (by norm_num), hpre 1 (by norm_num),
          hpre 2 (by norm_num), hv]
    · rcases hval with hv | hv <;>
        simp [session_save, save_loop, hpre 0 (by norm_num), hpre 1 (by norm_num),
          hpre 2 (by norm_num), hpre 3 (by norm_num), hv]

/-- C8 witness: all-integrity raises on the 5th attempt; two integrity
errors then a successful write save with the slug regenerated on attempt 2;
an integrity error then a validation failure propagates at attempt 1. -/
theorem c8_save_retries_witness :
    session_save (fun _ => AttemptOutcome.integrityError) (fun _ => "a") =
      SaveResult.integrityRaised 4 ∧
    session_save
        (fun i => if i < 2 then AttemptOutcome.integrityError else AttemptOutcome.saveOk)
        (fun i => toString i) =
      SaveResult.saved "2" 2 ∧
    session_save
        (fun i => if i < 1 then AttemptOutcome.integrityError
          else AttemptOutcome.preCleanFail)
        (fun _ => "a") =
      SaveResult.validationError 1 :=
  ⟨c8_save_retries.1 _ _ (fun i _ => rfl),
    c8_save_retries.2.1 _ _ 2 (by norm_num) (fun j hj => if_pos hj)
      (if_neg (by norm_num)),
    c8_save_retries.2.2 _ _ 1 (by norm_num) (fun j hj => if_pos hj)
      (Or.inl (if_neg (by norm_num)))⟩

/-- C9 counterexample: with catalog data and parallax 3 the computed
light-year distance is 3260/3; quantized at the storage boundary it is
1086.67, which is not an integer multiple of 1/10 — the fields (declared
`decimal_places=2`) are not stored rounded to 1 fractional digit. -/
theorem c9_storage_rounding_counterexample :
    calculate_distances_from_parallax
        { api_payload := Option.some [("plx_value", "3.0")],
          distance_light_years := Option.none, distance_miles := Option.none }
        (PyVal.num 3) =
      Except.ok
        ({ api_payload := Option.some [("plx_value", "3.0")],
           distance_light_years := Option.some ((3260 : ℚ) / 3),
           distance_miles := Option.some ((3260 : ℚ) / 3 * 5880000000000) },
          Option.some ((3260 : ℚ) / 3), Option.some ((3260 : ℚ) / 3 * 5880000000000)) ∧
    quantize2 ((3260 : ℚ) / 3) = 108667 / 100 ∧
    ¬ ∃ n : ℤ, quantize2 ((3260 : ℚ) / 3) = (n : ℚ) / 10 := by
  have hfl : ⌊(100 : ℚ) * (3260 / 3)⌋ = 108666 := by
    rw [Int.floor_eq_iff]
    constructor <;> push_cast <;> norm_num
  have hq : quantize2 ((3260 : ℚ) / 3) = 108667 / 100 := by
    unfold quantize2 roundHalfEven
    rw [hfl]
    rw [if_neg (by push_cast; norm_num), if_pos (by push_cast; norm_num)]
    push_cast
    norm_num
  refine ⟨calc_parallax_pos _ 3 (by norm_num) (by decide), hq, ?_⟩
  rintro ⟨n, hn⟩
  rw [hq] at hn
  have hz : (108667 : ℤ) = n * 10 := by
    have h2 : (108667 : ℚ) = (n : ℚ) * 10 := by
      field_simp at hn
      linarith
    exact_mod_cast h2
  omega

/-- C9 (amended): the stored distances are decimal values rounded to exactly
2 fractional digits at the storage boundary (`decimal_places=2`,
half-even), moving the value by at most 1/200, while the fields as computed
internally carry the full-precision values. -/
theorem c9_storage_rounding_two_digits :
    (∀ x : ℚ, (100 * quantize2 x).den = 1 ∧ |quantize2 x - x| ≤ 1 / 200) ∧
    (∀ (s : ApiState) (p : ℚ), 0 < p → has_catalog_data s = true →
      calculate_distances_from_parallax s (PyVal.num p) =
        Except.ok
          ({ s with
              distance_light_years := Option.some (3260 / p),
              distance_miles := Option.some (3260 / p * 5880000000000) },
            Option.some (3260 / p), Option.some (3260 / p * 5880000000000))) :=
  ⟨fun x => ⟨quantize2_den x, quantize2_close x⟩,
    fun s p hp hd => calc_parallax_pos s p hp hd⟩

/-- C9 witness: the storage rounding and the full-precision internal value
at parallax 3. -/
theorem c9_storage_rounding_two_digits_witness :
    ((100 : ℚ) * quantize2 (3260 / 3)).den = 1 ∧
    (0 : ℚ) < 3 ∧
    calculate_distances_from_parallax
        { api_payload := Option.some [("plx_value", "3.0")],
          distance_light_years := Option.some 1, distance_miles := Option.some 2 }
        (PyVal.num 3) =
      Except.ok
        ({ api_payload := Option.some [("plx_value", "3.0")],
           distance_light_years := Option.some ((3260 : ℚ) / 3),
           distance_miles := Option.some ((3260 : ℚ) / 3 * 5880000000000) },
          Option.some ((3260 : ℚ) / 3), Option.some ((3260 : ℚ) / 3 * 5880000000000)) :=
  ⟨(c9_storage_rounding_two_digits.1 (3260 / 3)).1, by norm_num,
    c9_storage_rounding_two_digits.2 _ 3 (by norm_num) (by decide)⟩

/-- C10 (implicit): every call to the parallax method first resets both
distance fields; with an empty or null payload it returns `(None, None)`
and leaves both fields null whatever the input; after any call the two
fields are both null or both set; and a call with invalid input clears
previously stored distances. -/
theorem c10_parallax_reset_invariant (s : ApiState) (x : PyVal) :
    ((run_parallax s x).1.distance_light_years.isSome =
      (run_parallax s x).1.distance_miles.isSome) ∧
    (has_catalog_data s = false →
      run_parallax s x = (reset_distances s, Option.none, Option.none)) ∧
    ((∀ v, pyDecimal x = Option.some v → v ≤ 0) →
      run_parallax s x = (reset_distances s, Option.none, Option.none)) ∧
    (reset_distances s).distance_light_years = Option.none ∧
    (reset_distances s).distance_miles = Option.none := by
  refine ⟨?_, ?_, ?_, rfl, rfl⟩
  · rcases calc_parallax_cases s x with h | ⟨v, hv, hpv, h⟩
    · rw [run_parallax_eq s x _ h]
      rfl
    · rw [run_parallax_eq s x _ h]
      rfl
  · intro hd
    exact run_parallax_eq s x _ (calc_parallax_no_data s x hd)
  · intro hx
    exact run_parallax_eq s x _ (calc_parallax_invalid s x hx)

/-- C10 witness: a negative input clears previously stored distances, and a
valid positive parallax on a payload-less observation still yields `(None,
None)`. -/
theorem c10_parallax_reset_invariant_witness :
    run_parallax
        { api_payload := Option.some [("plx_value", "8.0")],
          distance_light_years := Option.some 1, distance_miles := Option.some 2 }
        (PyVal.num (-1)) =
      (reset_distances
          { api_payload := Option.some [("plx_value", "8.0")],
            distance_light_years := Option.some 1, distance_miles := Option.some 2 },
        Option.none, Option.none) ∧
    run_parallax
        { api_payload := Option.none, distance_light_years := Option.none,
          distance_miles := Option.none }
        (PyVal.num 2) =
      (reset_distances
          { api_payload := Option.none, distance_light_years := Option.none,
            distance_miles := Option.none },
        Option.none, Option.none) :=
  ⟨(c10_parallax_reset_invariant _ _).2.2.1
      (fun v hv => by
        have h1 : (-1 : ℚ) = v := Option.some.inj hv
        rw [← h1]
        norm_num),
    (c10_parallax_reset_invariant _ _).2.1 rfl⟩

end Lodestar
